import Mathlib

/-!
Verification of the Django/DRF books API and blog of this repository.

The development shallowly embeds the code that the specification's claims are
about:

* `src/advanced-api-project/api/models.py` — the `Author`/`Book` data model,
  its default ordering and its `unique_together` constraint;
* `src/advanced-api-project/api/serializers.py` — `BookSerializer` field and
  object validation (`validate_publication_year`, title/author fields, the
  unique-together validator DRF derives from the model);
* `src/advanced-api-project/api/views.py` — the list pipeline
  (`BookFilter`, search, ordering, pagination) and the create/update/delete
  endpoints with their permission gates;
* `src/django_blog/blog/views.py` and `models.py` — `PostUpdateView` and
  `CommentDeleteView` with their `test_func` ownership checks.

Machine strings are modelled as Lean `String` compared on their character
data; the database's byte-wise string collation is modelled by a lexicographic
order on code points, and Django's stable treatment of rows that compare
equal under `order_by` is modelled by a stable sort over the stored sequence.
-/

/-! ## String utilities (ASCII lowering, substring test, trimming, order) -/

/-- The character data of a string, lowercased character by character.
Models SQL `LOWER(...)` as used by Django's `icontains` lookup. -/
def lowerChars (s : String) : List Char :=
  s.data.map Char.toLower

/-- `listStarts n h` is true when `n` is an initial segment of `h`. -/
def listStarts : List Char → List Char → Bool
  | [], _ => true
  | _ :: _, [] => false
  | a :: as, b :: bs => a == b && listStarts as bs

/-- `listOccurs n h` is true when `n` occurs contiguously inside `h`. -/
def listOccurs (needle hay : List Char) : Bool :=
  match hay with
  | [] => needle.isEmpty
  | _ :: t => listStarts needle hay || listOccurs needle t

/-- Case-insensitive substring test: Django's `icontains` lookup,
`LOWER(hay) LIKE '%' || LOWER(needle) || '%'`. -/
def icontains (hay needle : String) : Bool :=
  listOccurs (lowerChars needle) (lowerChars hay)

/-- Strip leading and trailing whitespace from a character list
(Python `str.strip()`, applied by DRF `CharField(trim_whitespace=True)`). -/
def trimChars (l : List Char) : List Char :=
  ((l.dropWhile Char.isWhitespace).reverse.dropWhile Char.isWhitespace).reverse

/-- Whitespace-stripped string, as DRF's `CharField` stores it. -/
def stripStr (s : String) : String :=
  String.mk (trimChars s.data)

/-- Lexicographic order on character lists by code point; models the
database's byte-wise string comparison used by `ORDER BY` on a text column. -/
def charListLe : List Char → List Char → Bool
  | [], _ => true
  | _ :: _, [] => false
  | a :: as, b :: bs =>
    if a.toNat = b.toNat then charListLe as bs else decide (a.toNat < b.toNat)

/-- String order used for `ORDER BY title`. -/
def strLe (a b : String) : Bool :=
  charListLe a.data b.data

/-! ## Data model (`src/advanced-api-project/api/models.py`) -/

/-- `Author` model: `name = models.CharField(max_length=100)`. -/
structure Author where
  id : Nat
  name : String
deriving DecidableEq, Repr

/-- `Book` model: `title` (CharField, 200), `publication_year`
(IntegerField), `author` (ForeignKey to `Author`).  `Meta.unique_together =
['title', 'author']`, `Meta.ordering = ['-publication_year', 'title']`. -/
structure Book where
  id : Nat
  title : String
  publication_year : Int
  author : Nat
deriving DecidableEq, Repr

/-- The backing store: the `Book` and `Author` tables plus the next
auto-generated primary key for `Book`. -/
structure Store where
  books : List Book
  authors : List Author
  nextId : Nat
deriving DecidableEq, Repr

/-- The `Book.Meta.ordering = ['-publication_year', 'title']` comparison from
`src/advanced-api-project/api/models.py`: publication year descending, ties
broken by title ascending. -/
def metaOrderingLe (a b : Book) : Bool :=
  if a.publication_year == b.publication_year then strLe a.title b.title
  else decide (b.publication_year < a.publication_year)

/-- No two rows of the `Book` table share a `(title, author)` pair:
the model's `unique_together` constraint. -/
def uniqueTA (bs : List Book) : Prop :=
  List.Pairwise (fun a b => ¬(a.title = b.title ∧ a.author = b.author)) bs

/-- Primary keys of the `Book` table are pairwise distinct. -/
def idsNodup (bs : List Book) : Prop :=
  (bs.map (fun b => b.id)).Nodup

/-! ## Serializer (`src/advanced-api-project/api/serializers.py`) -/

/-- An inbound create/update payload for `BookSerializer`
(`fields = ['id', 'title', 'publication_year', 'author']`, `id` read-only). -/
structure BookPayload where
  title : String
  publication_year : Int
  author : Nat
deriving DecidableEq, Repr

/-- `BookSerializer.validate_publication_year`: rejects years after the
current year (with a message naming the current year), then years before
1000; otherwise returns the value. -/
def validate_publication_year (current_year : Int) (value : Int) : Except String Int :=
  if value > current_year then
    Except.error
      ("Publication year cannot be in the future. Current year is "
        ++ toString current_year ++ ".")
  else if value < 1000 then
    Except.error "Publication year must be after year 1000."
  else
    Except.ok value

/-- `BookSerializer.validate(data)`: the object-level hook is a pass-through
(returns `data` unchanged). -/
def bookSerializer_validate (data : BookPayload) : BookPayload :=
  data

/-- Field-level errors of the `title` CharField (required, not blank,
`max_length=200`, whitespace-trimmed), keyed messages as DRF produces them. -/
def titleFieldErrors (t : String) : List String :=
  let v := stripStr t
  if v = "" then ["This field may not be blank."]
  else if 200 < v.data.length then
    ["Ensure this field has no more than 200 characters."]
  else []

/-- Field-level errors of the `publication_year` field: exactly the message
raised by `validate_publication_year`, if any. -/
def yearFieldErrors (current_year y : Int) : List String :=
  match validate_publication_year current_year y with
  | Except.ok _ => []
  | Except.error m => [m]

/-- Whether the referenced author row exists (the `author` field is a
primary-key reference validated against the `Author` table). -/
def authorExists (store : Store) (aid : Nat) : Bool :=
  store.authors.any (fun a => a.id == aid)

/-- Field-level errors of the `author` foreign-key field. -/
def authorFieldErrors (store : Store) (aid : Nat) : List String :=
  if authorExists store aid then []
  else ["Invalid pk " ++ toString aid ++ " - object does not exist."]

/-- The serializer's field-to-message error mapping for field-level
validation, each message attached to its field's key. -/
def fieldErrors (current_year : Int) (store : Store) (p : BookPayload) :
    List (String × String) :=
  (titleFieldErrors p.title).map (fun m => ("title", m))
    ++ (yearFieldErrors current_year p.publication_year).map
        (fun m => ("publication_year", m))
    ++ (authorFieldErrors store p.author).map (fun m => ("author", m))

/-- Message of the `UniqueTogetherValidator` DRF derives from
`Book.Meta.unique_together = ['title', 'author']`. -/
def uniqueMessage : String :=
  "The fields title, author must make a unique set."

/-- Whether storing `(title, aid)` would duplicate an existing row other than
the one being updated (`excl`), as DRF's unique-together validator checks. -/
def hasConflict (store : Store) (excl : Option Nat) (title : String) (aid : Nat) : Bool :=
  store.books.any
    (fun b => b.title == title && b.author == aid && !(excl == some b.id))

/-- `BookSerializer.is_valid()`: run field-level validation, then (on
success) the unique-together validator and the pass-through object-level
`validate`; produce the validated payload (title trimmed) or the error
mapping. -/
def bookValidate (current_year : Int) (store : Store) (excl : Option Nat)
    (p : BookPayload) : Except (List (String × String)) BookPayload :=
  let fe := fieldErrors current_year store p
  if fe.isEmpty then
    let v : BookPayload :=
      { title := stripStr p.title
        publication_year := p.publication_year
        author := p.author }
    if hasConflict store excl v.title v.author then
      Except.error [("non_field_errors", uniqueMessage)]
    else
      Except.ok (bookSerializer_validate v)
  else
    Except.error fe

/-! ## Write endpoints (`src/advanced-api-project/api/views.py`) -/

/-- A JSON response body: the `{message, book}` envelope of
`BookCreateView.create` / `BookUpdateView.update`, the
`{message, deleted_book}` envelope of `BookDeleteView.destroy`, the
`{message, errors}` envelope of the 400 branches, or a bare `{detail}`. -/
inductive RespBody where
  | bookMsg (message : String) (book : Book)
  | deletedMsg (message : String) (deleted_book : Book)
  | errMsg (message : String) (errors : List (String × String))
  | detail (detail : String)
deriving DecidableEq, Repr

/-- An HTTP response: status code and body. -/
structure Resp where
  status : Nat
  body : RespBody
deriving DecidableEq, Repr

/-- The 401 response DRF's `IsAuthenticated` permission produces for a
request with no valid token (`permission_classes = [IsAuthenticated]` on the
create/update/delete views; spec: missing or invalid token yields 401). -/
def unauthorizedResp : Resp :=
  ⟨401, RespBody.detail "Authentication credentials were not provided."⟩

/-- The 404 response of `get_object` when no row has the requested pk. -/
def notFoundResp : Resp :=
  ⟨404, RespBody.detail "Not found."⟩

/-- A request principal: `some u` is a user authenticated by a valid token,
`none` a request with no valid token. -/
abbrev Principal := Option Nat

/-- `BookCreateView.create`: permission gate, then `is_valid()`; on success
persist the book under the next auto key and answer 201 with
`{'message': 'Book created successfully', 'book': ...}`; otherwise answer
400 with `{'message': 'Failed to create book', 'errors': ...}` leaving the
store untouched. -/
def bookCreate (current_year : Int) (user : Principal) (store : Store)
    (p : BookPayload) : Resp × Store :=
  match user with
  | none => (unauthorizedResp, store)
  | some _ =>
    match bookValidate current_year store none p with
    | Except.ok v =>
      let book : Book := ⟨store.nextId, v.title, v.publication_year, v.author⟩
      (⟨201, RespBody.bookMsg "Book created successfully" book⟩,
       { store with books := store.books ++ [book], nextId := store.nextId + 1 })
    | Except.error es =>
      (⟨400, RespBody.errMsg "Failed to create book" es⟩, store)

/-- `BookUpdateView.update`: permission gate, `get_object` (404 when the pk
is absent), then `is_valid()` against the payload excluding the instance from
the uniqueness check; on success overwrite the row and answer 200, otherwise
answer 400 leaving the store untouched. -/
def bookUpdate (current_year : Int) (user : Principal) (store : Store)
    (pk : Nat) (p : BookPayload) : Resp × Store :=
  match user with
  | none => (unauthorizedResp, store)
  | some _ =>
    match store.books.find? (fun b => b.id == pk) with
    | none => (notFoundResp, store)
    | some inst =>
      match bookValidate current_year store (some inst.id) p with
      | Except.ok v =>
        let book : Book := ⟨inst.id, v.title, v.publication_year, v.author⟩
        (⟨200, RespBody.bookMsg "Book updated successfully" book⟩,
         { store with
            books := store.books.map (fun b => if b.id == pk then book else b) })
      | Except.error es =>
        (⟨400, RespBody.errMsg "Failed to update book" es⟩, store)

/-- `BookDeleteView.destroy`: permission gate, `get_object` (404 when the pk
is absent), serialize the instance, then delete it and answer 200 with the
pre-deletion snapshot under `deleted_book`. -/
def bookDelete (user : Principal) (store : Store) (pk : Nat) : Resp × Store :=
  match user with
  | none => (unauthorizedResp, store)
  | some _ =>
    match store.books.find? (fun b => b.id == pk) with
    | none => (notFoundResp, store)
    | some inst =>
      (⟨200, RespBody.deletedMsg "Book deleted successfully" inst⟩,
       { store with books := store.books.filter (fun b => !(b.id == pk)) })

/-! ## List pipeline (`BookListView` in `src/advanced-api-project/api/views.py`) -/

/-- Query parameters of `GET /api/books/`: the `BookFilter` fields, the
`SearchFilter` term, a single `OrderingFilter` term, and the page number
(default 1). Parameters outside this set are ignored by the backends. -/
structure ListParams where
  title : Option String := none
  author : Option Nat := none
  publication_year : Option Int := none
  publication_year__gte : Option Int := none
  publication_year__lte : Option Int := none
  title__icontains : Option String := none
  search : Option String := none
  ordering : Option String := none
  page : Nat := 1
deriving DecidableEq, Repr

/-- `BookFilter`: conjunction of the provided field filters — exact `title`,
`author` id, exact `publication_year`, `publication_year__gte`,
`publication_year__lte`, and case-insensitive `title__icontains`. -/
def applyFilters (p : ListParams) (xs : List Book) : List Book :=
  xs.filter (fun b =>
    (match p.title with | none => true | some t => b.title == t)
    && (match p.author with | none => true | some a => b.author == a)
    && (match p.publication_year with
        | none => true | some y => b.publication_year == y)
    && (match p.publication_year__gte with
        | none => true | some y => decide (y ≤ b.publication_year))
    && (match p.publication_year__lte with
        | none => true | some y => decide (b.publication_year ≤ y))
    && (match p.title__icontains with
        | none => true | some t => icontains b.title t))

/-- Name of the author row referenced by a book, through the
`author__name` join of the search configuration. -/
def authorName (store : Store) (aid : Nat) : Option String :=
  (store.authors.find? (fun a => a.id == aid)).map (fun a => a.name)

/-- `SearchFilter` predicate over `search_fields = ['title', 'author__name']`:
the term matches when it occurs case-insensitively in the title or in the
related author's name (logical OR across the configured fields). -/
def matchesSearch (store : Store) (term : String) (b : Book) : Bool :=
  icontains b.title term || icontains ((authorName store b.author).getD "") term

/-- The search stage: no `search` parameter means no filtering; a term keeps
exactly the records matched by `matchesSearch`. -/
def applySearch (store : Store) (term : Option String) (xs : List Book) : List Book :=
  match term with
  | none => xs
  | some t => xs.filter (matchesSearch store t)

/-- Split an `ordering` term into its descending marker and field name. -/
def parseOrdering (s : String) : Bool × String :=
  match s.data with
  | '-' :: rest => (true, String.mk rest)
  | _ => (false, s)

/-- Membership in `ordering_fields = ['title', 'publication_year', 'author']`. -/
def orderingFieldOk (f : String) : Bool :=
  f == "title" || f == "publication_year" || f == "author"

/-- The ordering the pipeline actually applies: the requested field when it
is recognized, otherwise the view's default `ordering = ['-publication_year']`
(also used when no ordering parameter is given). -/
def chosenOrdering (o : Option String) : Bool × String :=
  match o with
  | none => (true, "publication_year")
  | some s =>
    let q := parseOrdering s
    if orderingFieldOk q.2 then q else (true, "publication_year")

/-- Ascending comparison on one sort field of a book. -/
def fieldLe (f : String) (a b : Book) : Bool :=
  if f = "title" then strLe a.title b.title
  else if f = "publication_year" then decide (a.publication_year ≤ b.publication_year)
  else decide (a.author ≤ b.author)

/-- Comparison in the requested direction: the `-` marker flips the order. -/
def ordLe (d : Bool) (f : String) (a b : Book) : Bool :=
  if d then fieldLe f b a else fieldLe f a b

/-- `OrderingFilter` as configured on `BookListView`: `ORDER BY` on the
chosen key, modelled as a stable sort of the stored sequence (rows that
compare equal keep their store order). -/
def applyOrdering (o : Option String) (xs : List Book) : List Book :=
  List.insertionSort
    (fun a b => ordLe (chosenOrdering o).1 (chosenOrdering o).2 a b = true) xs

/-- Modelled from the spec: the project settings module (not under `src/`)
fixes the pagination page size; the spec states a fixed page size and the
repository's own test (`test_pagination` in
`src/advanced-api-project/api/test_views.py`) pins it at 10. -/
def PAGE_SIZE : Nat := 10

/-- Number of pages the paginator exposes (an empty result set still has one,
empty, first page). -/
def totalPages (count : Nat) : Nat :=
  max 1 ((count + PAGE_SIZE - 1) / PAGE_SIZE)

/-- The list response envelope `{count, next, previous, results}`, with the
next/previous links abstracted to their existence. -/
structure ListResponse where
  count : Nat
  hasNext : Bool
  hasPrev : Bool
  results : List Book
deriving DecidableEq, Repr

/-- Page-number pagination: an out-of-range page is a 404 (`none`);
otherwise the envelope carries the total count, the existence of adjacent
pages, and the requested slice of at most `PAGE_SIZE` records. -/
def paginate (xs : List Book) (page : Nat) : Option ListResponse :=
  if page = 0 ∨ totalPages xs.length < page then none
  else
    some
      { count := xs.length
        hasNext := decide (page < totalPages xs.length)
        hasPrev := decide (1 < page)
        results := (xs.drop ((page - 1) * PAGE_SIZE)).take PAGE_SIZE }

/-- `GET /api/books/`: filter, search, order, paginate — the composition of
the three filter backends and the paginator on `BookListView`. -/
def bookList (store : Store) (p : ListParams) : Option ListResponse :=
  paginate
    (applyOrdering p.ordering
      (applySearch store p.search (applyFilters p store.books)))
    p.page

/-! ## Blog ownership checks (`src/django_blog/blog/views.py`, `models.py`) -/

/-- The `Post` model: `title`, `content`, `published_date`
(`auto_now_add=True`), `author` (ForeignKey to `User`). The date is a
timestamp abstracted to a number. -/
structure BlogPost where
  id : Nat
  title : String
  content : String
  published_date : Nat
  author : Nat
deriving DecidableEq, Repr

/-- The `Comment` model fields relevant here. -/
structure BlogComment where
  id : Nat
  post : Nat
  content : String
  author : Nat
deriving DecidableEq, Repr

/-- Outcome of a blog class-based view: redirect to login
(`LoginRequiredMixin`), 404 from `get_object`, 403 from
`UserPassesTestMixin`, or success. -/
inductive BlogOutcome where
  | redirectLogin
  | notFound
  | forbidden
  | success
deriving DecidableEq, Repr

/-- `PostUpdateView.test_func`: `self.request.user == post.author`. -/
def PostUpdateView_test_func (user : Nat) (post : BlogPost) : Bool :=
  user == post.author

/-- `CommentDeleteView.test_func`: `self.request.user == comment.author`. -/
def CommentDeleteView_test_func (user : Nat) (comment : BlogComment) : Bool :=
  user == comment.author

/-- `PostUpdateView`: login required; `get_object` by pk; `test_func`
ownership gate; on success the form updates `fields = ['title', 'content']`
and `form_valid` overwrites `instance.author` with the requesting user. -/
def postUpdate (user : Option Nat) (posts : List BlogPost) (pk : Nat)
    (t c : String) : BlogOutcome × List BlogPost :=
  match user with
  | none => (BlogOutcome.redirectLogin, posts)
  | some u =>
    match posts.find? (fun q => q.id == pk) with
    | none => (BlogOutcome.notFound, posts)
    | some post =>
      if PostUpdateView_test_func u post then
        let updated : BlogPost := { post with title := t, content := c, author := u }
        (BlogOutcome.success, posts.map (fun q => if q.id == pk then updated else q))
      else (BlogOutcome.forbidden, posts)

/-- `CommentDeleteView`: login required; `get_object` by pk; `test_func`
ownership gate; on success the comment row is deleted. -/
def commentDelete (user : Option Nat) (comments : List BlogComment) (pk : Nat) :
    BlogOutcome × List BlogComment :=
  match user with
  | none => (BlogOutcome.redirectLogin, comments)
  | some u =>
    match comments.find? (fun q => q.id == pk) with
    | none => (BlogOutcome.notFound, comments)
    | some comment =>
      if CommentDeleteView_test_func u comment then
        (BlogOutcome.success, comments.filter (fun q => !(q.id == pk)))
      else (BlogOutcome.forbidden, comments)

/-! ## Helper lemmas -/

theorem charListLe_total : ∀ (a b : List Char), charListLe a b = true ∨ charListLe b a = true := by
  intro a
  induction a with
  | nil => intro b; left; rfl
  | cons x xs ih =>
    intro b
    cases b with
    | nil => right; rfl
    | cons y ys =>
      simp only [charListLe]
      by_cases h : x.toNat = y.toNat
      · rw [if_pos h, if_pos h.symm]
        exact ih ys
      · rw [if_neg h, if_neg (fun hh => h hh.symm)]
        simp only [decide_eq_true_eq]
        omega

theorem charListLe_trans : ∀ (a b c : List Char),
    charListLe a b = true → charListLe b c = true → charListLe a c = true := by
  intro a
  induction a with
  | nil => intro b c _ _; rfl
  | cons x xs ih =>
    intro b c hab hbc
    cases b with
    | nil => simp [charListLe] at hab
    | cons y ys =>
      cases c with
      | nil => simp [charListLe] at hbc
      | cons z zs =>
        simp only [charListLe] at hab hbc ⊢
        split_ifs at hab hbc ⊢ <;>
          simp only [decide_eq_true_eq] at * <;>
          first
            | exact ih ys zs hab hbc
            | omega

theorem strLe_total (a b : String) : strLe a b = true ∨ strLe b a = true :=
  charListLe_total a.data b.data

theorem strLe_trans (a b c : String) (h1 : strLe a b = true) (h2 : strLe b c = true) :
    strLe a c = true :=
  charListLe_trans a.data b.data c.data h1 h2

theorem fieldLe_total (f : String) (a b : Book) :
    fieldLe f a b = true ∨ fieldLe f b a = true := by
  unfold fieldLe
  split_ifs
  · exact strLe_total a.title b.title
  · simp only [decide_eq_true_eq]; omega
  · simp only [decide_eq_true_eq]; omega

theorem fieldLe_trans (f : String) {a b c : Book}
    (h1 : fieldLe f a b = true) (h2 : fieldLe f b c = true) : fieldLe f a c = true := by
  unfold fieldLe at h1 h2 ⊢
  split_ifs at h1 h2 ⊢
  · exact strLe_trans _ _ _ h1 h2
  · simp only [decide_eq_true_eq] at h1 h2 ⊢; omega
  · simp only [decide_eq_true_eq] at h1 h2 ⊢; omega

theorem ordLe_total (d : Bool) (f : String) (a b : Book) :
    ordLe d f a b = true ∨ ordLe d f b a = true := by
  cases d
  · exact fieldLe_total f a b
  · exact fieldLe_total f b a

theorem ordLe_trans (d : Bool) (f : String) {a b c : Book}
    (h1 : ordLe d f a b = true) (h2 : ordLe d f b c = true) : ordLe d f a c = true := by
  cases d
  · exact fieldLe_trans f h1 h2
  · exact fieldLe_trans f h2 h1

theorem sorted_applyOrdering (o : Option String) (xs : List Book) :
    List.Sorted
      (fun a b => ordLe (chosenOrdering o).1 (chosenOrdering o).2 a b = true)
      (applyOrdering o xs) := by
  unfold applyOrdering
  exact @List.sorted_insertionSort _ _ _
    ⟨fun a b => ordLe_total _ _ a b⟩
    ⟨fun a b c hab hbc => ordLe_trans _ _ hab hbc⟩ xs

theorem length_applyOrdering (o : Option String) (xs : List Book) :
    (applyOrdering o xs).length = xs.length := by
  unfold applyOrdering
  exact List.length_insertionSort _ xs

theorem bookList_inv (store : Store) (p : ListParams) (resp : ListResponse)
    (h : bookList store p = some resp) :
    1 ≤ p.page ∧
    p.page ≤ totalPages
      (applyOrdering p.ordering
        (applySearch store p.search (applyFilters p store.books))).length ∧
    resp =
      { count :=
          (applyOrdering p.ordering
            (applySearch store p.search (applyFilters p store.books))).length
        hasNext :=
          decide (p.page < totalPages
            (applyOrdering p.ordering
              (applySearch store p.search (applyFilters p store.books))).length)
        hasPrev := decide (1 < p.page)
        results :=
          ((applyOrdering p.ordering
            (applySearch store p.search (applyFilters p store.books))).drop
              ((p.page - 1) * PAGE_SIZE)).take PAGE_SIZE } := by
  unfold bookList paginate at h
  split at h
  · exact absurd h (by simp)
  · next hc =>
    obtain ⟨h0, hle⟩ := not_or.mp hc
    exact ⟨Nat.one_le_iff_ne_zero.mpr h0, Nat.le_of_not_lt hle, (Option.some.inj h).symm⟩

theorem bookList_count (store : Store) (p : ListParams) (resp : ListResponse)
    (h : bookList store p = some resp) :
    resp.count = (applySearch store p.search (applyFilters p store.books)).length := by
  rw [(bookList_inv store p resp h).2.2]
  exact length_applyOrdering _ _

theorem bookList_sorted (store : Store) (p : ListParams) (resp : ListResponse)
    (h : bookList store p = some resp) :
    List.Sorted
      (fun a b =>
        ordLe (chosenOrdering p.ordering).1 (chosenOrdering p.ordering).2 a b = true)
      resp.results := by
  rw [(bookList_inv store p resp h).2.2]
  exact List.Pairwise.sublist
    ((List.take_sublist _ _).trans (List.drop_sublist _ _))
    (sorted_applyOrdering _ _)

theorem mem_fieldErrors_year (cy : Int) (store : Store) (p : BookPayload) (m : String) :
    ("publication_year", m) ∈ fieldErrors cy store p ↔
      m ∈ yearFieldErrors cy p.publication_year := by
  unfold fieldErrors
  simp [List.mem_append, List.mem_map]

theorem orderingFieldOk_cases (f : String) (h : orderingFieldOk f = true) :
    f = "title" ∨ f = "publication_year" ∨ f = "author" := by
  unfold orderingFieldOk at h
  simp only [Bool.or_eq_true, beq_iff_eq] at h
  tauto

theorem applySearch_congr (store : Store) (t1 t2 : String)
    (h : lowerChars t1 = lowerChars t2) (xs : List Book) :
    applySearch store (some t1) xs = applySearch store (some t2) xs := by
  have hms : matchesSearch store t1 = matchesSearch store t2 := by
    funext b
    unfold matchesSearch icontains
    rw [h]
  show xs.filter (matchesSearch store t1) = xs.filter (matchesSearch store t2)
  rw [hms]

/-! ## Claim theorems -/

/-- C1: publication-year validation accepts a payload's year `y` exactly when
`1000 ≤ y ≤ currentYear`; for `y > currentYear` it rejects with a message
naming the current year, for `y < 1000` with a fixed message, and in the
serializer's error mapping every such message is attached to the
`publication_year` field (and no `publication_year` error appears for a
valid year). -/
theorem publication_year_validation_correct (cy y : Int) (store : Store) (p : BookPayload) :
    (validate_publication_year cy y = Except.ok y ↔ (1000 ≤ y ∧ y ≤ cy))
    ∧ (cy < y → validate_publication_year cy y =
        Except.error
          ("Publication year cannot be in the future. Current year is "
            ++ toString cy ++ "."))
    ∧ (y < 1000 → y ≤ cy → validate_publication_year cy y =
        Except.error "Publication year must be after year 1000.")
    ∧ (p.publication_year = y → cy < y →
        ("publication_year",
          "Publication year cannot be in the future. Current year is "
            ++ toString cy ++ ".") ∈ fieldErrors cy store p)
    ∧ (p.publication_year = y → y < 1000 → y ≤ cy →
        ("publication_year", "Publication year must be after year 1000.")
          ∈ fieldErrors cy store p)
    ∧ (p.publication_year = y → 1000 ≤ y → y ≤ cy →
        ∀ m, ("publication_year", m) ∉ fieldErrors cy store p) := by
  have hfut : cy < y → validate_publication_year cy y =
      Except.error
        ("Publication year cannot be in the future. Current year is "
          ++ toString cy ++ ".") := by
    intro h
    unfold validate_publication_year
    rw [if_pos (show y > cy from h)]
  have hold : y < 1000 → y ≤ cy → validate_publication_year cy y =
      Except.error "Publication year must be after year 1000." := by
    intro h1 h2
    unfold validate_publication_year
    rw [if_neg (by omega), if_pos h1]
  have hok : 1000 ≤ y → y ≤ cy → validate_publication_year cy y = Except.ok y := by
    intro h1 h2
    unfold validate_publication_year
    rw [if_neg (by omega), if_neg (by omega)]
  refine ⟨?_, hfut, hold, ?_, ?_, ?_⟩
  · constructor
    · intro h
      by_contra hbad
      rcases (by omega : cy < y ∨ (y < 1000 ∧ y ≤ cy)) with hc | ⟨hc1, hc2⟩
      · rw [hfut hc] at h
        exact absurd h (by simp)
      · rw [hold hc1 hc2] at h
        exact absurd h (by simp)
    · intro ⟨h1, h2⟩
      exact hok h1 h2
  · intro hpy hc
    rw [mem_fieldErrors_year, hpy]
    unfold yearFieldErrors
    rw [hfut hc]
    simp
  · intro hpy h1 h2
    rw [mem_fieldErrors_year, hpy]
    unfold yearFieldErrors
    rw [hold h1 h2]
    simp
  · intro hpy h1 h2 m
    rw [mem_fieldErrors_year, hpy]
    unfold yearFieldErrors
    rw [hok h1 h2]
    simp

/-- Witness for C1 at the spec's own example: current year 2024, payload year
2030 rejected with a message naming 2024; year 999 rejected; year 1999
accepted with no `publication_year` error. -/
theorem publication_year_validation_correct_witness :
    validate_publication_year 2024 2030 =
      Except.error "Publication year cannot be in the future. Current year is 2024."
    ∧ validate_publication_year 2024 999 =
      Except.error "Publication year must be after year 1000."
    ∧ ("publication_year",
        "Publication year cannot be in the future. Current year is 2024.")
        ∈ fieldErrors 2024 ⟨[], [⟨1, "Rowling"⟩], 1⟩ ⟨"X", 2030, 1⟩
    ∧ validate_publication_year 2024 1999 = Except.ok 1999 := by
  refine ⟨?_, ?_, ?_, ?_⟩
  · exact (publication_year_validation_correct 2024 2030 ⟨[], [⟨1, "Rowling"⟩], 1⟩
      ⟨"X", 2030, 1⟩).2.1 (by decide)
  · exact (publication_year_validation_correct 2024 999 ⟨[], [⟨1, "Rowling"⟩], 1⟩
      ⟨"X", 999, 1⟩).2.2.1 (by decide) (by decide)
  · exact (publication_year_validation_correct 2024 2030 ⟨[], [⟨1, "Rowling"⟩], 1⟩
      ⟨"X", 2030, 1⟩).2.2.2.1 rfl (by decide)
  · exact (publication_year_validation_correct 2024 1999 ⟨[], [⟨1, "Rowling"⟩], 1⟩
      ⟨"X", 1999, 1⟩).1.mpr ⟨by decide, by decide⟩

/-- C2: a create, update or delete request carrying no valid authentication
token gets a 401 response and leaves the backing store exactly as it was. -/
theorem unauthenticated_writes_rejected (cy : Int) (store : Store) (p : BookPayload) (pk : Nat) :
    bookCreate cy none store p = (unauthorizedResp, store)
    ∧ bookUpdate cy none store pk p = (unauthorizedResp, store)
    ∧ bookDelete none store pk = (unauthorizedResp, store)
    ∧ unauthorizedResp.status = 401 :=
  ⟨rfl, rfl, rfl, rfl⟩

/-- C6: for an authenticated create request, validation success yields 201
with the message envelope echoing the created book under its assigned
identifier and appends exactly that book to the store; validation failure
yields 400 with the message/errors envelope and leaves the store unchanged;
the 201 status occurs exactly when validation passes. -/
theorem create_envelope_correct (cy : Int) (u : Nat) (store : Store) (p : BookPayload) :
    (∀ v, bookValidate cy store none p = Except.ok v →
      bookCreate cy (some u) store p =
        (⟨201, RespBody.bookMsg "Book created successfully"
            ⟨store.nextId, v.title, v.publication_year, v.author⟩⟩,
         { store with
            books := store.books ++ [⟨store.nextId, v.title, v.publication_year, v.author⟩]
            nextId := store.nextId + 1 }))
    ∧ (∀ es, bookValidate cy store none p = Except.error es →
      bookCreate cy (some u) store p =
        (⟨400, RespBody.errMsg "Failed to create book" es⟩, store))
    ∧ ((bookCreate cy (some u) store p).1.status = 201 ↔
        ∃ v, bookValidate cy store none p = Except.ok v) := by
  refine ⟨?_, ?_, ?_⟩
  · intro v hv
    unfold bookCreate
    rw [hv]
  · intro es hes
    unfold bookCreate
    rw [hes]
  · unfold bookCreate
    cases hv : bookValidate cy store none p with
    | ok v => simp
    | error es => simp

/-- Witness for C6: a valid payload creates book 3 and answers 201; a
duplicate payload answers 400 with the unique-set error and leaves the
two-book store unchanged. -/
theorem create_envelope_correct_witness :
    bookCreate 2024 (some 7) ⟨[⟨1, "B", 2000, 1⟩, ⟨2, "A", 2000, 1⟩], [⟨1, "Rowling"⟩], 3⟩
        ⟨"C", 2001, 1⟩ =
      (⟨201, RespBody.bookMsg "Book created successfully" ⟨3, "C", 2001, 1⟩⟩,
       ⟨[⟨1, "B", 2000, 1⟩, ⟨2, "A", 2000, 1⟩, ⟨3, "C", 2001, 1⟩], [⟨1, "Rowling"⟩], 4⟩)
    ∧ bookCreate 2024 (some 7) ⟨[⟨1, "B", 2000, 1⟩, ⟨2, "A", 2000, 1⟩], [⟨1, "Rowling"⟩], 3⟩
        ⟨"A", 2000, 1⟩ =
      (⟨400, RespBody.errMsg "Failed to create book" [("non_field_errors", uniqueMessage)]⟩,
       ⟨[⟨1, "B", 2000, 1⟩, ⟨2, "A", 2000, 1⟩], [⟨1, "Rowling"⟩], 3⟩) := by
  constructor
  · exact (create_envelope_correct 2024 7
      ⟨[⟨1, "B", 2000, 1⟩, ⟨2, "A", 2000, 1⟩], [⟨1, "Rowling"⟩], 3⟩ ⟨"C", 2001, 1⟩).1
      ⟨"C", 2001, 1⟩ rfl
  · exact (create_envelope_correct 2024 7
      ⟨[⟨1, "B", 2000, 1⟩, ⟨2, "A", 2000, 1⟩], [⟨1, "Rowling"⟩], 3⟩ ⟨"A", 2000, 1⟩).2.1
      [("non_field_errors", uniqueMessage)] rfl

/-- C9: an authenticated delete of an existing record answers 200 with the
record's pre-deletion field values under `deleted_book` and removes the
record (it is no longer findable); deleting a non-existent pk answers 404 and
changes nothing. -/
theorem delete_snapshot_correct (u : Nat) (store : Store) (pk : Nat) :
    (∀ inst, store.books.find? (fun b => b.id == pk) = some inst →
      bookDelete (some u) store pk =
        (⟨200, RespBody.deletedMsg "Book deleted successfully" inst⟩,
         { store with books := store.books.filter (fun b => !(b.id == pk)) })
      ∧ (bookDelete (some u) store pk).2.books.find? (fun b => b.id == pk) = none
      ∧ inst ∈ store.books)
    ∧ (store.books.find? (fun b => b.id == pk) = none →
      bookDelete (some u) store pk = (notFoundResp, store) ∧ notFoundResp.status = 404) := by
  constructor
  · intro inst hfind
    have heq : bookDelete (some u) store pk =
        (⟨200, RespBody.deletedMsg "Book deleted successfully" inst⟩,
         { store with books := store.books.filter (fun b => !(b.id == pk)) }) := by
      unfold bookDelete
      rw [hfind]
    refine ⟨heq, ?_, List.mem_of_find?_eq_some hfind⟩
    rw [heq]
    refine List.find?_eq_none.mpr ?_
    intro x hx
    have := (List.mem_filter.mp hx).2
    simp only [Bool.not_eq_true'] at this
    simp [this]
  · intro hfind
    constructor
    · unfold bookDelete
      rw [hfind]
    · rfl

/-- Witness for C9: deleting book 2 from a two-book store answers 200 with
its snapshot and leaves a store in which pk 2 is gone; deleting pk 9 answers
404. -/
theorem delete_snapshot_correct_witness :
    (bookDelete (some 7) ⟨[⟨1, "B", 2000, 1⟩, ⟨2, "A", 2000, 1⟩], [⟨1, "Rowling"⟩], 3⟩ 2 =
      (⟨200, RespBody.deletedMsg "Book deleted successfully" ⟨2, "A", 2000, 1⟩⟩,
       ⟨[⟨1, "B", 2000, 1⟩], [⟨1, "Rowling"⟩], 3⟩))
    ∧ (bookDelete (some 7) ⟨[⟨1, "B", 2000, 1⟩, ⟨2, "A", 2000, 1⟩], [⟨1, "Rowling"⟩], 3⟩ 9 =
      (notFoundResp, ⟨[⟨1, "B", 2000, 1⟩, ⟨2, "A", 2000, 1⟩], [⟨1, "Rowling"⟩], 3⟩)) := by
  constructor
  · exact ((delete_snapshot_correct 7
      ⟨[⟨1, "B", 2000, 1⟩, ⟨2, "A", 2000, 1⟩], [⟨1, "Rowling"⟩], 3⟩ 2).1
      ⟨2, "A", 2000, 1⟩ (by decide)).1
  · exact ((delete_snapshot_correct 7
      ⟨[⟨1, "B", 2000, 1⟩, ⟨2, "A", 2000, 1⟩], [⟨1, "Rowling"⟩], 3⟩ 9).2 (by decide)).1

/-- C3: whenever the list endpoint answers, the results slice has at most
`PAGE_SIZE` records, the count equals the total number of records matching
the request's filters and search (whatever page was asked for), and the
next/previous indicators are set exactly when an adjacent page exists. -/
theorem list_pagination_correct (store : Store) (p : ListParams) (resp : ListResponse)
    (h : bookList store p = some resp) :
    resp.results.length ≤ PAGE_SIZE
    ∧ resp.count = (applySearch store p.search (applyFilters p store.books)).length
    ∧ (resp.hasNext = true ↔ p.page * PAGE_SIZE < resp.count)
    ∧ (resp.hasPrev = true ↔ 1 < p.page)
    ∧ (∀ p2 resp2, bookList store { p with page := p2 } = some resp2 →
        resp2.count = resp.count) := by
  obtain ⟨h1, hle, heq⟩ := bookList_inv store p resp h
  refine ⟨?_, bookList_count store p resp h, ?_, ?_, ?_⟩
  · rw [heq]
    exact List.length_take_le _ _
  · rw [heq]
    simp only [decide_eq_true_eq]
    unfold totalPages PAGE_SIZE
    omega
  · rw [heq]
    simp only [decide_eq_true_eq]
  · intro p2 resp2 h2
    rw [bookList_count store { p with page := p2 } resp2 h2,
      bookList_count store p resp h]
    rfl

/-- Witness for C3 on a concrete two-book store, page 1 of the unfiltered
list. -/
theorem list_pagination_correct_witness :
    ({ count := 2, hasNext := false, hasPrev := false,
       results := [⟨1, "B", 2000, 1⟩, ⟨2, "A", 2000, 1⟩] } : ListResponse).results.length
        ≤ PAGE_SIZE
    ∧ ({ count := 2, hasNext := false, hasPrev := false,
         results := [⟨1, "B", 2000, 1⟩, ⟨2, "A", 2000, 1⟩] } : ListResponse).count =
        (applySearch ⟨[⟨1, "B", 2000, 1⟩, ⟨2, "A", 2000, 1⟩], [⟨1, "Rowling"⟩], 3⟩
          ({} : ListParams).search
          (applyFilters ({} : ListParams) [⟨1, "B", 2000, 1⟩, ⟨2, "A", 2000, 1⟩])).length := by
  have h := list_pagination_correct
    ⟨[⟨1, "B", 2000, 1⟩, ⟨2, "A", 2000, 1⟩], [⟨1, "Rowling"⟩], 3⟩ ({} : ListParams)
    { count := 2, hasNext := false, hasPrev := false,
      results := [⟨1, "B", 2000, 1⟩, ⟨2, "A", 2000, 1⟩] } (by decide)
  exact ⟨h.1, h.2.1⟩

/-- C4: with a search term, a record survives the search stage exactly when
the term occurs case-insensitively in its title or in its author's name
(logical OR of the two configured fields); the outcome depends only on the
lowercased term, so `search=harry` and `search=HARRY` produce the same
response; with no term the stage filters nothing. -/
theorem search_semantics_correct (store : Store) (xs : List Book) (t t1 t2 : String)
    (b : Book) (p : ListParams) :
    (b ∈ applySearch store (some t) xs ↔
      b ∈ xs ∧ (icontains b.title t = true
        ∨ icontains ((authorName store b.author).getD "") t = true))
    ∧ (lowerChars t1 = lowerChars t2 →
        applySearch store (some t1) xs = applySearch store (some t2) xs)
    ∧ applySearch store none xs = xs
    ∧ bookList store { p with search := some "harry" } =
        bookList store { p with search := some "HARRY" } := by
    refine ⟨?_, fun h => applySearch_congr store t1 t2 h xs, rfl, ?_⟩
    · show b ∈ xs.filter (matchesSearch store t) ↔ _
      simp [List.mem_filter, matchesSearch, Bool.or_eq_true]
    · show paginate (applyOrdering p.ordering
          (applySearch store (some "harry") (applyFilters p store.books))) p.page =
        paginate (applyOrdering p.ordering
          (applySearch store (some "HARRY") (applyFilters p store.books))) p.page
      rw [applySearch_congr store "harry" "HARRY" (by decide) (applyFilters p store.books)]

/-- Witness for C4: the case-insensitivity conjunct at the concrete terms
"Harry" and "hARRY" on a one-book list. -/
theorem search_semantics_correct_witness :
    applySearch ⟨[⟨1, "Harry Potter", 1997, 1⟩], [⟨1, "Rowling"⟩], 2⟩ (some "Harry")
        [⟨1, "Harry Potter", 1997, 1⟩] =
      applySearch ⟨[⟨1, "Harry Potter", 1997, 1⟩], [⟨1, "Rowling"⟩], 2⟩ (some "hARRY")
        [⟨1, "Harry Potter", 1997, 1⟩] :=
  (search_semantics_correct ⟨[⟨1, "Harry Potter", 1997, 1⟩], [⟨1, "Rowling"⟩], 2⟩
    [⟨1, "Harry Potter", 1997, 1⟩] "x" "Harry" "hARRY" ⟨1, "Harry Potter", 1997, 1⟩
    ({} : ListParams)).2.1 (by decide)

/-- C5 (amended): an ordering parameter naming a recognized field sorts the
results by that field, non-decreasing without the `-` marker and
non-increasing with it; an unrecognized ordering field makes the pipeline
behave exactly as with no ordering parameter, i.e. the view's default
ordering `['-publication_year']`, under which results are non-increasing in
publication year; ties retain the backing-store order (no secondary key is
applied). -/
theorem ordering_sorts_results (store : Store) :
    (∀ p resp f, orderingFieldOk f = true → p.ordering = some f →
      bookList store p = some resp →
      List.Sorted (fun a b => fieldLe f a b = true) resp.results)
    ∧ (∀ p resp f, orderingFieldOk f = true → p.ordering = some ("-" ++ f) →
      bookList store p = some resp →
      List.Sorted (fun a b => fieldLe f b a = true) resp.results)
    ∧ (∀ (p : ListParams) s d f, p.ordering = some s → parseOrdering s = (d, f) →
      orderingFieldOk f = false →
      bookList store p = bookList store { p with ordering := none })
    ∧ (∀ (p : ListParams) resp, p.ordering = none → bookList store p = some resp →
      List.Sorted (fun a b => fieldLe "publication_year" b a = true) resp.results) := by
  refine ⟨?_, ?_, ?_, ?_⟩
  · intro p resp f hok hord h
    have hs := bookList_sorted store p resp h
    rw [hord] at hs
    rcases orderingFieldOk_cases f hok with hf | hf | hf <;> subst hf
    · rw [show chosenOrdering (some "title") = (false, "title") from by decide] at hs
      exact hs
    · rw [show chosenOrdering (some "publication_year") = (false, "publication_year")
        from by decide] at hs
      exact hs
    · rw [show chosenOrdering (some "author") = (false, "author") from by decide] at hs
      exact hs
  · intro p resp f hok hord h
    have hs := bookList_sorted store p resp h
    rw [hord] at hs
    rcases orderingFieldOk_cases f hok with hf | hf | hf <;> subst hf
    · rw [show chosenOrdering (some ("-" ++ "title")) = (true, "title")
        from by decide] at hs
      exact hs
    · rw [show chosenOrdering (some ("-" ++ "publication_year")) =
          (true, "publication_year") from by decide] at hs
      exact hs
    · rw [show chosenOrdering (some ("-" ++ "author")) = (true, "author")
        from by decide] at hs
      exact hs
  · intro p s d f hord hparse hrec
    have hco : chosenOrdering p.ordering = chosenOrdering none := by
      rw [hord]
      show (if orderingFieldOk (parseOrdering s).2 then parseOrdering s
        else (true, "publication_year")) = _
      rw [hparse]
      show (if orderingFieldOk f then (d, f) else (true, "publication_year")) = _
      rw [hrec]
      rfl
    show paginate (applyOrdering p.ordering
        (applySearch store p.search (applyFilters p store.books))) p.page =
      paginate (applyOrdering none
        (applySearch store p.search (applyFilters p store.books))) p.page
    unfold applyOrdering
    simp only [hco]
  · intro p resp hord h
    have hs := bookList_sorted store p resp h
    rw [hord] at hs
    exact hs

/-- Counterexample to C5 as stated: with an unrecognized ordering field the
pipeline falls back to the view default `['-publication_year']` only; on a
store holding ids 1 ("B") and 2 ("A") with equal years, the results come
back in store order [B, A], which is not sorted under the model default order
`['-publication_year', 'title']` whose secondary key the claim says breaks
ties. -/
theorem ordering_tiebreak_counterexample :
    bookList ⟨[⟨1, "B", 2000, 1⟩, ⟨2, "A", 2000, 1⟩], [⟨1, "Rowling"⟩], 3⟩
        { ordering := some "isbn" } =
      some { count := 2, hasNext := false, hasPrev := false,
             results := [⟨1, "B", 2000, 1⟩, ⟨2, "A", 2000, 1⟩] }
    ∧ metaOrderingLe ⟨1, "B", 2000, 1⟩ ⟨2, "A", 2000, 1⟩ = false := by
  constructor
  · decide
  · decide

/-- Witness for C5 (amended): ordering by "title" ascending on a concrete
two-book store yields a title-sorted page, and an unrecognized ordering
equals the no-ordering pipeline. -/
theorem ordering_sorts_results_witness :
    List.Sorted (fun a b => fieldLe "title" a b = true)
      ([⟨2, "A", 1999, 1⟩, ⟨1, "b", 2000, 1⟩] : List Book)
    ∧ bookList ⟨[⟨1, "B", 2000, 1⟩, ⟨2, "A", 2000, 1⟩], [⟨1, "Rowling"⟩], 3⟩
        { ordering := some "isbn" } =
      bookList ⟨[⟨1, "B", 2000, 1⟩, ⟨2, "A", 2000, 1⟩], [⟨1, "Rowling"⟩], 3⟩
        { ordering := none } := by
  constructor
  · have h := (ordering_sorts_results
      ⟨[⟨1, "b", 2000, 1⟩, ⟨2, "A", 1999, 1⟩], [⟨1, "Rowling"⟩], 3⟩).1
      { ordering := some "title" }
      { count := 2, hasNext := false, hasPrev := false,
        results := [⟨2, "A", 1999, 1⟩, ⟨1, "b", 2000, 1⟩] }
      "title" (by decide) rfl (by decide)
    exact h
  · exact (ordering_sorts_results
      ⟨[⟨1, "B", 2000, 1⟩, ⟨2, "A", 2000, 1⟩], [⟨1, "Rowling"⟩], 3⟩).2.2.1
      { ordering := some "isbn" } "isbn" false "isbn" rfl (by decide) (by decide)

theorem bookValidate_ok (cy : Int) (store : Store) (excl : Option Nat)
    (p : BookPayload) (v : BookPayload)
    (h : bookValidate cy store excl p = Except.ok v) :
    v = ⟨stripStr p.title, p.publication_year, p.author⟩
    ∧ hasConflict store excl (stripStr p.title) p.author = false := by
  simp only [bookValidate] at h
  split at h
  · split at h
    · exact absurd h (by simp)
    · next hconf =>
      refine ⟨?_, eq_false_of_ne_true hconf⟩
      have := Except.ok.inj h
      exact this.symm
  · exact absurd h (by simp)

theorem none_beq_some (n m : Nat) : ((none : Option Nat) == some n) = false ∧
    ((some m : Option Nat) == some n) = (m == n) :=
  ⟨rfl, rfl⟩

/-- C7: the `(title, author)` uniqueness invariant is preserved by every
create, update and delete; and a create or update whose payload would
duplicate an existing `(title, author)` pair (passing field validation) is
answered 400 with the unique-set conflict error, leaving the store
unchanged.  All endpoint functions are total, so no failure escapes
unhandled. -/
theorem unique_title_author_enforced (cy : Int) (u : Principal) (store : Store)
    (p : BookPayload) (pk : Nat) :
    (uniqueTA store.books → uniqueTA (bookCreate cy u store p).2.books)
    ∧ (idsNodup store.books → uniqueTA store.books →
        uniqueTA (bookUpdate cy u store pk p).2.books)
    ∧ (uniqueTA store.books → uniqueTA (bookDelete u store pk).2.books)
    ∧ (∀ uid, fieldErrors cy store p = [] →
        hasConflict store none (stripStr p.title) p.author = true →
        bookCreate cy (some uid) store p =
          (⟨400, RespBody.errMsg "Failed to create book"
              [("non_field_errors", uniqueMessage)]⟩, store))
    ∧ (∀ uid inst, store.books.find? (fun b => b.id == pk) = some inst →
        fieldErrors cy store p = [] →
        hasConflict store (some inst.id) (stripStr p.title) p.author = true →
        bookUpdate cy (some uid) store pk p =
          (⟨400, RespBody.errMsg "Failed to update book"
              [("non_field_errors", uniqueMessage)]⟩, store)) := by
  refine ⟨?_, ?_, ?_, ?_, ?_⟩
  · -- create preserves uniqueness
    intro hU
    unfold bookCreate
    cases u with
    | none => exact hU
    | some uid =>
      cases hv : bookValidate cy store none p with
      | error es => simp only; exact hU
      | ok v =>
        obtain ⟨hveq, hconf⟩ := bookValidate_ok cy store none p v hv
        subst hveq
        simp only
        unfold uniqueTA at hU ⊢
        rw [List.pairwise_append]
        refine ⟨hU, List.pairwise_singleton _ _, ?_⟩
        intro a ha b hb
        simp only [List.mem_singleton] at hb
        subst hb
        intro hdup
        unfold hasConflict at hconf
        rw [List.any_eq_false] at hconf
        have := hconf a ha
        simp [hdup.1, hdup.2] at this
  · -- update preserves uniqueness
    intro hId hU
    unfold bookUpdate
    cases u with
    | none => exact hU
    | some uid =>
      cases hfind : store.books.find? (fun b => b.id == pk) with
      | none => simp only [hfind]; exact hU
      | some inst =>
        simp only [hfind]
        cases hv : bookValidate cy store (some inst.id) p with
        | error es => simp only; exact hU
        | ok v =>
          obtain ⟨hveq, hconf⟩ := bookValidate_ok cy store (some inst.id) p v hv
          subst hveq
          simp only
          have hbeq : (inst.id == pk) = true :=
            @List.find?_some Book (fun b => b.id == pk) inst store.books hfind
          have hpk : inst.id = pk := eq_of_beq hbeq
          have hId' : List.Pairwise (fun a b : Book => a.id ≠ b.id) store.books :=
            List.pairwise_map.mp hId
          have hcf : ∀ b ∈ store.books, b.title = stripStr p.title →
              b.author = p.author → b.id = inst.id := by
            intro b hb h1 h2
            unfold hasConflict at hconf
            rw [List.any_eq_false] at hconf
            have := hconf b hb
            simp [h1, h2] at this
            exact this.symm
          unfold uniqueTA at hU ⊢
          rw [List.pairwise_map]
          refine List.Pairwise.imp_of_mem ?_ (hId'.and hU)
          intro a b ha hb hab
      
      
        
          obtain ⟨hne, hR⟩ := hab
          by_cases hA : (a.id == pk) = true <;> by_cases hB : (b.id == pk) = true
          · exact absurd ((eq_of_beq hA).trans (eq_of_beq hB).symm) hne
          · rw [if_pos hA, if_neg hB]
            intro hdup
            have hbid := hcf b hb hdup.1.symm hdup.2.symm
            rw [hpk] at hbid
            exact hB (by simp [hbid])
          · rw [if_neg hA, if_pos hB]
            intro hdup
            have haid := hcf a ha hdup.1 hdup.2
            rw [hpk] at haid
            exact hA (by simp [haid])
          · rw [if_neg hA, if_neg hB]
            exact hR
  · -- delete preserves uniqueness
    intro hU
    unfold bookDelete
    cases u with
    | none => exact hU
    | some uid =>
      cases hfind : store.books.find? (fun b => b.id == pk) with
      | none => simp only [hfind]; exact hU
      | some inst =>
        simp only [hfind]
        exact List.Pairwise.sublist (List.filter_sublist _) hU
  · -- duplicate create is a 400 conflict, store unchanged
    intro uid hfe hconf
    have hval : bookValidate cy store none p =
        Except.error [("non_field_errors", uniqueMessage)] := by
      unfold bookValidate
      rw [hfe]
      simp [hconf]
    unfold bookCreate
    rw [hval]
  · -- duplicate update is a 400 conflict, store unchanged
    intro uid inst hfind hfe hconf
    have hval : bookValidate cy store (some inst.id) p =
        Except.error [("non_field_errors", uniqueMessage)] := by
      unfold bookValidate
      rw [hfe]
      simp [hconf]
    unfold bookUpdate
    simp only [hfind, hval]

/-- Witness for C7: creating a fresh title preserves uniqueness of a
concrete unique store, and creating a duplicate `(title, author)` pair is a
400 conflict that leaves the store unchanged. -/
theorem unique_title_author_enforced_witness :
    uniqueTA (bookCreate 2024 (some 7)
      ⟨[⟨1, "B", 2000, 1⟩, ⟨2, "A", 2000, 1⟩], [⟨1, "Rowling"⟩], 3⟩
      ⟨"C", 2001, 1⟩).2.books
    ∧ bookCreate 2024 (some 7)
        ⟨[⟨1, "B", 2000, 1⟩, ⟨2, "A", 2000, 1⟩], [⟨1, "Rowling"⟩], 3⟩ ⟨"A", 2000, 1⟩ =
      (⟨400, RespBody.errMsg "Failed to create book"
          [("non_field_errors", uniqueMessage)]⟩,
       ⟨[⟨1, "B", 2000, 1⟩, ⟨2, "A", 2000, 1⟩], [⟨1, "Rowling"⟩], 3⟩) := by
  constructor
  · exact (unique_title_author_enforced 2024 (some 7)
      ⟨[⟨1, "B", 2000, 1⟩, ⟨2, "A", 2000, 1⟩], [⟨1, "Rowling"⟩], 3⟩
      ⟨"C", 2001, 1⟩ 0).1 (by unfold uniqueTA; decide)
  · exact (unique_title_author_enforced 2024 (some 7)
      ⟨[⟨1, "B", 2000, 1⟩, ⟨2, "A", 2000, 1⟩], [⟨1, "Rowling"⟩], 3⟩
      ⟨"A", 2000, 1⟩ 0).2.2.2.1 7 (by decide) (by decide)

/-- C8 (amended): the blog's mutation views enforce ownership — an
authenticated user who is not the record's author gets `forbidden` and the
records are unchanged — while the book API's mutation endpoints check only
authentication: their outcome is identical for every authenticated user. -/
theorem ownership_gate (u : Nat) (posts : List BlogPost)
    (comments : List BlogComment) (pk : Nat) (t c : String) :
    (∀ post, posts.find? (fun q => q.id == pk) = some post → u ≠ post.author →
      postUpdate (some u) posts pk t c = (BlogOutcome.forbidden, posts))
    ∧ (∀ comment, comments.find? (fun q => q.id == pk) = some comment →
        u ≠ comment.author →
        commentDelete (some u) comments pk = (BlogOutcome.forbidden, comments))
    ∧ (∀ cy u2 store p, bookUpdate cy (some u) store pk p = bookUpdate cy (some u2) store pk p)
    ∧ (∀ u2 store, bookDelete (some u) store pk = bookDelete (some u2) store pk) := by
  refine ⟨?_, ?_, ?_, ?_⟩
  · intro post hfind hne
    unfold postUpdate
    simp only [hfind]
    rw [if_neg]
    simp [PostUpdateView_test_func, hne]
  · intro comment hfind hne
    unfold commentDelete
    simp only [hfind]
    rw [if_neg]
    simp [CommentDeleteView_test_func, hne]
  · intro cy u2 store p
    rfl
  · intro u2 store
    rfl

/-- Counterexample to C8 as stated: on the book API an authenticated user
(id 99) who did not create the record can update book 1 — the request is not
refused (status 200) and the record changes, so "only the original author
may mutate a given record through the mutation endpoints" fails for the
book endpoints. -/
theorem ownership_counterexample :
    (bookUpdate 2024 (some 99) ⟨[⟨1, "Owned", 2000, 1⟩], [⟨1, "Rowling"⟩], 2⟩ 1
        ⟨"Changed", 2001, 1⟩).1.status = 200
    ∧ (bookUpdate 2024 (some 99) ⟨[⟨1, "Owned", 2000, 1⟩], [⟨1, "Rowling"⟩], 2⟩ 1
        ⟨"Changed", 2001, 1⟩).2.books = [⟨1, "Changed", 2001, 1⟩] :=
  ⟨by decide, by decide⟩

/-- Witness for C8 (amended): user 7 is not the author (2) of post 1 nor of
comment 1, and both mutations come back forbidden with the lists unchanged. -/
theorem ownership_gate_witness :
    postUpdate (some 7) [⟨1, "T", "C", 5, 2⟩] 1 "X" "Y" =
      (BlogOutcome.forbidden, [⟨1, "T", "C", 5, 2⟩])
    ∧ commentDelete (some 7) [⟨1, 1, "hi", 2⟩] 1 =
      (BlogOutcome.forbidden, [⟨1, 1, "hi", 2⟩]) := by
  constructor
  · exact (ownership_gate 7 [⟨1, "T", "C", 5, 2⟩] [⟨1, 1, "hi", 2⟩] 1 "X" "Y").1
      ⟨1, "T", "C", 5, 2⟩ (by decide) (by decide)
  · exact (ownership_gate 7 [⟨1, "T", "C", 5, 2⟩] [⟨1, 1, "hi", 2⟩] 1 "X" "Y").2.1
      ⟨1, 1, "hi", 2⟩ (by decide) (by decide)

/-- C10: a successful blog-post update changes only title and content: every
post's identifier, author and publication date are exactly as before — the
view writes the requesting user into `author`, but the ownership gate admits
only the existing author, and `published_date` (`auto_now_add`) is not among
the form's fields. -/
theorem post_update_frame (u pk : Nat) (t c : String) (posts posts' : List BlogPost)
    (hnd : (posts.map (fun q => q.id)).Nodup)
    (h : postUpdate (some u) posts pk t c = (BlogOutcome.success, posts')) :
    posts'.map (fun q => (q.id, q.author, q.published_date)) =
      posts.map (fun q => (q.id, q.author, q.published_date)) := by
  simp only [postUpdate] at h
  cases hfind : posts.find? (fun q => q.id == pk) with
  | none =>
    simp only [hfind] at h
    simp at h
  | some post =>
    simp only [hfind] at h
    by_cases ht : PostUpdateView_test_func u post = true
    · rw [if_pos ht] at h
      simp only [Prod.mk.injEq] at h
      obtain ⟨-, h2⟩ := h
      have hu : u = post.author := by
        simpa [PostUpdateView_test_func] using ht
      have hmem : post ∈ posts := List.mem_of_find?_eq_some hfind
      have hbeq : (post.id == pk) = true :=
        @List.find?_some BlogPost (fun q => q.id == pk) post posts hfind
      have hpid : post.id = pk := eq_of_beq hbeq
      rw [← h2, List.map_map]
      refine List.map_congr_left ?_
      intro q hq
      by_cases hq' : (q.id == pk) = true
      · have hqid : q.id = pk := eq_of_beq hq'
        have hqp : q = post :=
          List.inj_on_of_nodup_map hnd hq hmem (by rw [hqid, hpid])
        subst hqp
        simp [hu, hqid]
      · have hne2 : ¬ q.id = pk := by simpa using hq'
        simp [hne2]
    · rw [if_neg ht] at h
      simp at h

/-- Witness for C10: user 2 (the author) updates post 1's title and content;
id, author and publication date project unchanged. -/
theorem post_update_frame_witness :
    ([⟨1, "X", "Y", 5, 2⟩] : List BlogPost).map (fun q => (q.id, q.author, q.published_date)) =
      ([⟨1, "Old", "OldC", 5, 2⟩] : List BlogPost).map
        (fun q => (q.id, q.author, q.published_date)) :=
  post_update_frame 2 1 "X" "Y" [⟨1, "Old", "OldC", 5, 2⟩] [⟨1, "X", "Y", 5, 2⟩]
    (by decide) (by decide)
